import Mathlib

/-!
Verification development for the spark-logs-industry-project RCA platform.

The definitions below are a shallow embedding of the Python source:
  * `src/src/domain/models.py` (`ErrorEntry`, `AgentResult`, `FailedJob`),
  * `src/src/state/rca_state.py` (`RCAState`, `RCAStateFactory`, `RCAStateValidator`),
  * `src/src/agents/base_agent.py` and the seven agent modules,
  * `src/src/graph/rca_graph.py` (routing rules),
  * `src/src/system/engine.py` / `src/src/orchestrator/engine.py` (`RCAEngine.run`),
  * `src/src/clients/iomete_client.py` (batch run selection, semaphore fan-out),
  * `src/src/main.py` (hourly batch loop and aggregate report).

Python dictionaries holding opaque payloads are modelled as association lists
over a small `PyVal` value type; fallible collaborator calls are modelled as
`Except PyError` values injected as parameters.
-/

/-- A Python runtime value as it appears in the opaque payload maps
(`data`, `meta`, `lineage`, `retrieval_context`). -/
inductive PyVal where
  | str : String → PyVal
  | bool : Bool → PyVal
  | int : Int → PyVal
  | list : List String → PyVal
deriving DecidableEq

/-- Python `str()` conversion restricted to the payload values we model. -/
def PyVal.pyStr : PyVal → String
  | .str s => s
  | .bool b => if b then "True" else "False"
  | .int n => toString n
  | .list xs => String.intercalate ", " xs

/-- Python `d.get(k, default)` over an association-list model of a dict. -/
def dictGet (m : List (String × PyVal)) (k : String) (d : PyVal) : PyVal :=
  match m.find? (fun p => p.1 = k) with
  | some p => p.2
  | none => d

/-- Python `d[k] = v` over an association-list model of a dict: updates the
entry in place when the key is present, otherwise appends it. -/
def dictSet {α : Type} (m : List (String × α)) (k : String) (v : α) : List (String × α) :=
  if m.any (fun p => p.1 = k) then m.map (fun p => if p.1 = k then (k, v) else p)
  else m ++ [(k, v)]

/-- A raised Python exception, reduced to its class name and `str()` message.
`src/src/errors/exceptions.py` defines the class taxonomy; only the class
name and message are observable in the state. -/
structure PyError where
  className : String
  message : String
deriving DecidableEq

/-- `ErrorEntry` from `src/src/domain/models.py` (also `schemas.models`):
`code`, `message`, `source`, `details`. -/
structure ErrorEntry where
  code : String
  message : String
  source : String
  details : List (String × PyVal)
deriving DecidableEq

/-- `AgentResult` from `src/src/domain/models.py`: the uniform structured
output envelope (`status`, `data`, `confidence`, `meta`). The confidence
float is modelled as a rational. -/
structure AgentResult where
  status : String
  data : List (String × PyVal)
  confidence : Rat
  meta : List (String × PyVal)
deriving DecidableEq

/-- One `agent_history` element as built by `BaseAgent._append_history`:
a dict with keys `agent` and `result`. -/
structure HistoryEntry where
  agent : String
  result : AgentResult
deriving DecidableEq

/-- `RCAState` from `src/src/state/rca_state.py` lines 10-36.  The TypedDict
declares `execution_id`; the engine's initial-state literal in
`src/src/system/engine.py` instead supplies `run_id`.  The record carries
both fields so that both call sites can be embedded; which keys are actually
present in each Python dict is tracked separately by the explicit key lists
`RCAStateValidator.requiredKeys` and `RCAEngine.initialStateKeys`, because
the key-presence check of `RCAStateValidator.validate` operates on dict keys,
not on values.  An absent key's value slot is `""`. -/
structure RCAState where
  job_id : String
  job_name : String
  run_id : String
  execution_id : String
  logs : String
  summary : String
  root_cause : String
  solution : String
  category : String
  lineage : List (String × PyVal)
  start_time : String
  end_time : String
  status : String
  errors : List ErrorEntry
  decision_path : List String
  agent_history : List HistoryEntry
  confidence_scores : List (String × Rat)
  driver_failure : Bool
  retrieval_context : List (String × PyVal)
  log_source : String
  error_type : String
  error_message : String
  severity : String
  resolution : List String
  solution_source : String
deriving DecidableEq

/-- A partial state update as returned by an agent's `run` and consumed by
`RCAStateFactory.clone_with_updates`: a dict holding a subset of the state
keys.  `none` models an absent key.  Identity keys (`job_id`, `job_name`,
`run_id`, `execution_id`, `start_time`) never occur in any update dict in the
source and are omitted. -/
structure StateUpdate where
  logs : Option String := none
  summary : Option String := none
  root_cause : Option String := none
  solution : Option String := none
  category : Option String := none
  lineage : Option (List (String × PyVal)) := none
  end_time : Option String := none
  status : Option String := none
  errors : Option (List ErrorEntry) := none
  decision_path : Option (List String) := none
  agent_history : Option (List HistoryEntry) := none
  confidence_scores : Option (List (String × Rat)) := none
  driver_failure : Option Bool := none
  retrieval_context : Option (List (String × PyVal)) := none
  log_source : Option String := none
  error_type : Option String := none
  error_message : Option String := none
  severity : Option String := none
  resolution : Option (List String) := none
  solution_source : Option String := none
deriving DecidableEq

/-- `RCAStateFactory.create_initial` from `src/src/state/rca_state.py`
lines 42-70.  The source dict has no `run_id` key; its value slot is `""`. -/
def RCAStateFactory.createInitial (jobId jobName executionId startTime : String) : RCAState :=
  { job_id := jobId
    job_name := jobName
    run_id := ""
    execution_id := executionId
    logs := ""
    summary := ""
    root_cause := ""
    solution := ""
    category := ""
    lineage := []
    start_time := startTime
    end_time := ""
    status := "running"
    errors := []
    decision_path := []
    agent_history := []
    confidence_scores := []
    driver_failure := false
    retrieval_context := []
    log_source := "none"
    error_type := ""
    error_message := ""
    severity := ""
    resolution := []
    solution_source := "" }

/-- `RCAStateFactory.clone_with_updates` from `src/src/state/rca_state.py`
lines 72-77: `copied = deepcopy(state); copied.update(updates)`.  Python
`dict.update` overwrites every key present in `updates` and leaves the rest
unchanged, for accumulator fields exactly as for scalars. -/
def RCAStateFactory.cloneWithUpdates (state : RCAState) (u : StateUpdate) : RCAState :=
  { job_id := state.job_id
    job_name := state.job_name
    run_id := state.run_id
    execution_id := state.execution_id
    logs := u.logs.getD state.logs
    summary := u.summary.getD state.summary
    root_cause := u.root_cause.getD state.root_cause
    solution := u.solution.getD state.solution
    category := u.category.getD state.category
    lineage := u.lineage.getD state.lineage
    start_time := state.start_time
    end_time := u.end_time.getD state.end_time
    status := u.status.getD state.status
    errors := u.errors.getD state.errors
    decision_path := u.decision_path.getD state.decision_path
    agent_history := u.agent_history.getD state.agent_history
    confidence_scores := u.confidence_scores.getD state.confidence_scores
    driver_failure := u.driver_failure.getD state.driver_failure
    retrieval_context := u.retrieval_context.getD state.retrieval_context
    log_source := u.log_source.getD state.log_source
    error_type := u.error_type.getD state.error_type
    error_message := u.error_message.getD state.error_message
    severity := u.severity.getD state.severity
    resolution := u.resolution.getD state.resolution
    solution_source := u.solution_source.getD state.solution_source }

/-- `RCAStateValidator._required_keys` from `src/src/state/rca_state.py`
lines 83-108, verbatim: note `execution_id` and the absence of `run_id`. -/
def RCAStateValidator.requiredKeys : List String :=
  ["job_id", "job_name", "logs", "summary", "root_cause", "solution",
   "category", "lineage", "execution_id", "start_time", "end_time", "status",
   "errors", "decision_path", "agent_history", "confidence_scores",
   "driver_failure", "retrieval_context", "log_source", "error_type",
   "error_message", "severity", "resolution", "solution_source"]

/-- The missing-keys computation of `RCAStateValidator.validate`
(`src/src/state/rca_state.py` lines 110-116): the required keys not present
in the dict; `validate` raises `ValueError` exactly when this is nonempty. -/
def RCAStateValidator.missingKeys (keys : List String) : List String :=
  RCAStateValidator.requiredKeys.filter (fun k => ¬ keys.contains k)

/-- Python truthiness of an optional string (`None` and `""` are falsy). -/
def optStrTruthy : Option String → Bool
  | some s => s ≠ ""
  | none => false

/-- `BaseAgent._wrap_exception` from `src/src/agents/base_agent.py`
lines 61-63: wraps a raised exception into an `AgentError` whose message is
`f"{name}: {message}: {error}"`. -/
def BaseAgent.wrapException (name message : String) (err : PyError) : PyError :=
  { className := "AgentError", message := name ++ ": " ++ message ++ ": " ++ err.message }

/-- `BaseAgent._attach_error` from `src/src/agents/base_agent.py`
lines 47-59: the failure-path partial update.  `code` is the exception's
class name, `source` is the agent's own name; the update carries exactly the
keys `errors` and `status`. -/
def BaseAgent.attachError (name : String) (err : PyError) : StateUpdate :=
  { errors := some [{ code := err.className, message := err.message, source := name, details := [] }]
    status := some "failed" }

/-- `BaseAgent._append_history` from `src/src/agents/base_agent.py`
lines 26-45: starting from `partial_state or {}`, overwrite the keys
`agent_history` (one entry), `decision_path` (the agent's name) and
`confidence_scores` (a copy of the passed state's map with the agent's own
entry set).  Note that the first parameter is only read for its
`confidence_scores`; any other data inside it is not part of the result. -/
def BaseAgent.appendHistory (name : String) (state : RCAState) (result : AgentResult)
    (upd : StateUpdate := {}) : StateUpdate :=
  { upd with
    agent_history := some [{ agent := name, result := result }]
    decision_path := some [name]
    confidence_scores := some (dictSet state.confidence_scores name result.confidence) }

/-- `LogFetcherAgent.run` from `src/src/agents/log_fetcher_agent.py`
lines 23-63.  The two collaborator calls (`iomete_client.fetch_logs`,
`splunk_client.fetch_logs`) are injected as `Except` outcomes; the Splunk
call only happens when the IOMETE result is falsy. -/
def LogFetcherAgent.run (iometeLogs splunkLogs : Except PyError (Option String))
    (state : RCAState) : StateUpdate :=
  match (do
      let first ← iometeLogs
      if optStrTruthy first then Except.ok (first, "iomete")
      else do
        let second ← splunkLogs
        Except.ok (second, "splunk") : Except PyError (Option String × String)) with
  | .ok (logsOpt, source) =>
    let logs := logsOpt.getD ""
    let result : AgentResult :=
      { status := "success"
        data := [("logs_found", PyVal.bool (logs ≠ "")),
                 ("source", PyVal.str (if logs ≠ "" then source else "none"))]
        confidence := 1, meta := [] }
    BaseAgent.appendHistory "log_fetcher" state result
      { logs := some logs, log_source := some (if logs ≠ "" then source else "none") }
  | .error e =>
    BaseAgent.attachError "log_fetcher" (BaseAgent.wrapException "log_fetcher" "failed to fetch logs" e)

/-- `DriverFailureAgent.run` from `src/src/agents/driver_failure_agent.py`
lines 19-47.  On success the source clones the full state with the
`driver_failure` flag and passes that clone as the *state* argument of
`_append_history` with no `partial_state`, so the returned update is built
from the empty dict. -/
def DriverFailureAgent.run (detect : Except PyError Bool) (state : RCAState) : StateUpdate :=
  match detect with
  | .ok failure =>
    let result : AgentResult :=
      { status := "success", data := [("driver_failure", PyVal.bool failure)]
        confidence := 1, meta := [] }
    let updated := RCAStateFactory.cloneWithUpdates state { driver_failure := some failure }
    BaseAgent.appendHistory "driver_failure" updated result
  | .error e =>
    BaseAgent.attachError "driver_failure"
      (BaseAgent.wrapException "driver_failure" "failed to detect driver failure" e)

/-- `SummarizerAgent.run` from `src/src/agents/summarizer_agent.py`
lines 25-50.  The three collaborator calls (`fetch_knowledge`,
`build_context`, `invoke_structured`) are injected as sequential `Except`
outcomes.  As with the driver-failure agent, the success path passes the
cloned full state as the *state* argument of `_append_history` with no
`partial_state`. -/
def SummarizerAgent.run (knowledge : Except PyError (List (String × PyVal)))
    (builtContext : Except PyError (List (String × PyVal)))
    (invoked : Except PyError AgentResult) (state : RCAState) : StateUpdate :=
  match (do
      let _k ← knowledge
      let context ← builtContext
      let result ← invoked
      Except.ok (context, result) : Except PyError (List (String × PyVal) × AgentResult)) with
  | .ok (context, result) =>
    let summary := (dictGet result.data "summary" (PyVal.str "")).pyStr
    let errorType := (dictGet result.data "error_type" (PyVal.str "")).pyStr
    let errorMessage := (dictGet result.data "error_message" (PyVal.str "")).pyStr
    let updated := RCAStateFactory.cloneWithUpdates state
      { summary := some summary, error_type := some errorType
        error_message := some errorMessage, retrieval_context := some context }
    BaseAgent.appendHistory "summarizer" updated result
  | .error e =>
    BaseAgent.attachError "summarizer"
      (BaseAgent.wrapException "summarizer" "failed to summarize logs" e)

/-- `LineageAgent.run` from `src/src/agents/lineage_agent.py` lines 21-35. -/
def LineageAgent.run (fetched : Except PyError (Option (List (String × PyVal))))
    (state : RCAState) : StateUpdate :=
  match fetched with
  | .ok lineageOpt =>
    let lineage := lineageOpt.getD []
    let result : AgentResult :=
      { status := "success", data := [("lineage_found", PyVal.bool (lineage ≠ []))]
        confidence := 1, meta := [] }
    BaseAgent.appendHistory "lineage" state result { lineage := some lineage }
  | .error e =>
    BaseAgent.attachError "lineage"
      (BaseAgent.wrapException "lineage" "failed to fetch lineage" e)

/-- `CategoryAgent.run` from `src/src/agents/category_agent.py` lines 21-34. -/
def CategoryAgent.run (invoked : Except PyError AgentResult) (state : RCAState) : StateUpdate :=
  match invoked with
  | .ok result =>
    let category := (dictGet result.data "category" (PyVal.str "")).pyStr
    BaseAgent.appendHistory "category" state result { category := some category }
  | .error e =>
    BaseAgent.attachError "category"
      (BaseAgent.wrapException "category" "failed to classify category" e)

/-- `RCAAgent.run` from `src/src/agents/rca_agent.py` lines 27-58.  The
knowledge-and-context pair of calls only happens when the state carries no
retrieval context and has logs. -/
def RCAAgent.run (knowledge : Except PyError (List (String × PyVal)))
    (builtContext : Except PyError (List (String × PyVal)))
    (invoked : Except PyError AgentResult) (state : RCAState) : StateUpdate :=
  match (do
      let context ←
        (if state.retrieval_context = [] ∧ state.logs ≠ "" then do
            let _k ← knowledge
            builtContext
          else Except.ok state.retrieval_context)
      let result ← invoked
      Except.ok (context, result) : Except PyError (List (String × PyVal) × AgentResult)) with
  | .ok (context, result) =>
    let rootCause := (dictGet result.data "root_cause" (PyVal.str "")).pyStr
    let rcaCategory := (dictGet result.data "rca_category" (PyVal.str state.category)).pyStr
    BaseAgent.appendHistory "rca" state result
      { root_cause := some rootCause, category := some rcaCategory
        retrieval_context := some context }
  | .error e =>
    BaseAgent.attachError "rca"
      (BaseAgent.wrapException "rca" "failed to infer root cause" e)

/-- `SolutionAgent.run` from `src/src/agents/solution_agent.py` lines 30-65. -/
def SolutionAgent.run (solutions : Except PyError (List (String × PyVal)))
    (invoked : Except PyError AgentResult)
    (severityOutcome : Except PyError (String × Int)) (state : RCAState) : StateUpdate :=
  match (do
      let _s ← solutions
      let result ← invoked
      let sev ← severityOutcome
      Except.ok (result, sev) : Except PyError (AgentResult × (String × Int))) with
  | .ok (result, (severity, caseCount)) =>
    let solution := (dictGet result.data "solution" (PyVal.str "")).pyStr
    let resolutionRaw := dictGet result.data "resolution" (PyVal.list [])
    let resolution :=
      match resolutionRaw with
      | .list xs => xs
      | _ => [solution]
    let solutionSource := (dictGet result.data "source" (PyVal.str "knowledge_base")).pyStr
    let result2 := { result with meta := dictSet result.meta "severity_case_count" (PyVal.int caseCount) }
    BaseAgent.appendHistory "solution" state result2
      { solution := some solution, severity := some severity
        resolution := some resolution, solution_source := some solutionSource }
  | .error e =>
    BaseAgent.attachError "solution"
      (BaseAgent.wrapException "solution" "failed to generate solution" e)

/-- Rule A, `RCAGraphBuilder._route_after_log_fetcher` from
`src/src/graph/rca_graph.py` lines 74-77. -/
def RCAGraphBuilder.routeAfterLogFetcher (state : RCAState) : String :=
  if state.logs ≠ "" then "summarizer" else "driver_failure"

/-- Rule B, `RCAGraphBuilder._route_after_driver_failure` from
`src/src/graph/rca_graph.py` lines 79-84. -/
def RCAGraphBuilder.routeAfterDriverFailure (state : RCAState) : String :=
  if state.logs = "" ∧ state.driver_failure = true then "rca" else "lineage"

/-- Rule C, `RCAGraphBuilder._route_after_lineage` from
`src/src/graph/rca_graph.py` lines 86-89. -/
def RCAGraphBuilder.routeAfterLineage (state : RCAState) : String :=
  if state.category ≠ "" then "rca" else "category"

/-- The outcome of `RCAEngine.run`: either a raised exception
(`ValueError` from `RCAStateValidator.validate`, or the wrapped
`GraphError`) or a returned terminal state. -/
inductive EngineFailure where
  | validationError (missing : List String)
  | graphError (message : String)
deriving DecidableEq

/-- The keys of the initial-state dict literal built by `RCAEngine.run`
(`src/src/system/engine.py` lines 31-56, identically
`src/src/orchestrator/engine.py` lines 32-57), verbatim: note `run_id` and
the absence of `execution_id`. -/
def RCAEngine.initialStateKeys : List String :=
  ["job_id", "job_name", "run_id", "start_time", "logs", "summary",
   "root_cause", "solution", "category", "lineage", "end_time", "status",
   "errors", "decision_path", "agent_history", "confidence_scores",
   "driver_failure", "retrieval_context", "log_source", "error_type",
   "error_message", "severity", "resolution", "solution_source"]

/-- The value content of the engine's initial-state dict literal
(`src/src/system/engine.py` lines 31-56).  The dict has no `execution_id`
key; its value slot in the record is `""`. -/
def RCAEngine.initialState (jobId jobName runId startTime : String) : RCAState :=
  { RCAStateFactory.createInitial jobId jobName "" startTime with
    run_id := runId, execution_id := "" }

/-- The `failed` dict built inside the `except` block of `RCAEngine.run`
(`src/src/system/engine.py` lines 76-80): a copy of the pre-failure state
with `end_time` stamped, `status` set to `failed`, and one
`ErrorEntry{code: "GraphError", source: "engine"}` appended to `errors`. -/
def RCAEngine.failedState (state : RCAState) (errMessage endTime : String) : RCAState :=
  { state with
    end_time := endTime
    status := "failed"
    errors := state.errors ++
      [{ code := "GraphError", message := errMessage, source := "engine", details := [] }] }

/-- The `except` block of `RCAEngine.run` (`src/src/system/engine.py`
lines 75-88): build the failed state, validate it (raising `ValueError` when
required keys are missing from the dict whose keys are `keys`), and
otherwise raise the wrapped `GraphError`.  In either case an exception is
raised; the failed state itself is discarded, never returned. -/
def RCAEngine.exceptBlock (keys : List String) (errMessage : String) :
    Except EngineFailure RCAState :=
  match RCAStateValidator.missingKeys keys with
  | [] => Except.error (EngineFailure.graphError ("RCA engine execution failed: " ++ errMessage))
  | missing => Except.error (EngineFailure.validationError missing)

/-- `RCAEngine.run` from `src/src/system/engine.py` lines 22-88 (the async
variant in `src/src/orchestrator/engine.py` lines 23-112 has the same
control flow).  The compiled graph walk is injected as a function from the
initial state to either a final state or a raised error message; the two
`TimeUtils.utc_now_iso()` readings are injected as `startTime`/`endTime`.
The first `RCAStateValidator.validate(state)` call sits before the `try`
block, so a `ValueError` raised there propagates unwrapped.  On the success
path the engine re-validates the substrate's output before returning; the
record model carries all fields, so that check is key-complete there. -/
def RCAEngine.run (graph : RCAState → Except String RCAState)
    (jobId jobName runId startTime endTime : String) : Except EngineFailure RCAState :=
  let state := RCAEngine.initialState jobId jobName runId startTime
  match RCAStateValidator.missingKeys RCAEngine.initialStateKeys with
  | missing@(_ :: _) => Except.error (EngineFailure.validationError missing)
  | [] =>
    match graph state with
    | .ok finalState =>
      let completed := { finalState with
        end_time := endTime
        status := if finalState.errors.isEmpty then "completed" else "failed" }
      Except.ok completed
    | .error e => RCAEngine.exceptBlock RCAEngine.initialStateKeys e

/-- One run descriptor as consumed by `_process_single_job` in
`src/src/clients/iomete_client.py` lines 196-217, with the dict lookups
already performed: `runID` is `run.get("id", run.get("run_id"))` (with the
falsy cases `None` and `""` both modelled as `""`), `driverStatus` is
`run.get("driverStatus", run.get("status", ""))`, and `terminationTime` is
`run.get("terminationTime")` (`""` when absent). -/
structure RunInfo where
  runID : String
  driverStatus : String
  terminationTime : String
deriving DecidableEq

/-- The `runs_with_time` list of `_process_single_job`
(`src/src/clients/iomete_client.py` lines 196-204): runs with a truthy
termination timestamp that `datetime.fromisoformat` parses; parse failures
are skipped.  The parse is injected as `parseTime`. -/
def IometeClient.runsWithTime (parseTime : String → Option Int) (runs : List RunInfo) :
    List (RunInfo × Int) :=
  runs.filterMap fun r =>
    if r.terminationTime = "" then none
    else (parseTime r.terminationTime).map (fun t => (r, t))

/-- The fold step realizing `runs_with_time.sort(key=time, reverse=True)`
followed by taking element `[0]`: keep the first-encountered run whose
timestamp is maximal (Python's sort is stable, so ties keep original
order). -/
def IometeClient.laterRun (best y : RunInfo × Int) : RunInfo × Int :=
  if y.2 > best.2 then y else best

/-- `runs_with_time.sort(key=lambda x: x[1], reverse=True)` followed by
`runs_with_time[0]` (`src/src/clients/iomete_client.py` lines 209-210),
as the first element attaining the maximal timestamp. -/
def IometeClient.latestByTime : List (RunInfo × Int) → Option (RunInfo × Int)
  | [] => none
  | x :: xs => some (xs.foldl IometeClient.laterRun x)

/-- The run-selection core of `_process_single_job`
(`src/src/clients/iomete_client.py` lines 196-217): collect the runs with
parseable termination timestamps, take the latest of them regardless of
status, and only then keep the job if that single latest run has
`driverStatus` in `FAILED`/`ABORTED` and a truthy run id; otherwise the job
is dropped (`None`). -/
def IometeClient.selectFailedRun (parseTime : String → Option Int)
    (runs : List RunInfo) : Option RunInfo :=
  match IometeClient.latestByTime (IometeClient.runsWithTime parseTime runs) with
  | none => none
  | some (latest, _) =>
    if (latest.driverStatus = "FAILED" ∨ latest.driverStatus = "ABORTED") ∧ latest.runID ≠ ""
    then some latest else none

/-- The width of the shared `asyncio.Semaphore(100)` created in
`fetch_failed_jobs_with_runs_async` (`src/src/clients/iomete_client.py`
line 173). -/
def IometeClient.semaphoreWidth : Nat := 100

/-- The lifecycle of one `_process_single_job` task with respect to the
shared semaphore: not yet started, inside the `async with semaphore` block,
or finished (the block releases the slot on every exit path). -/
inductive TaskPhase where
  | pending
  | running
  | done
deriving DecidableEq

/-- Whether a task currently holds a semaphore slot. -/
def TaskPhase.isRunning : TaskPhase → Bool
  | .running => true
  | _ => false

/-- How many of the issued tasks are currently inside the semaphore-guarded
block. -/
def runningCount (ts : List TaskPhase) : Nat :=
  ts.countP TaskPhase.isRunning

/-- Interleaving semantics of the semaphore-guarded tasks of
`fetch_failed_jobs_with_runs_async` (`src/src/clients/iomete_client.py`
lines 173-220): a pending task may enter its `async with semaphore` block
only when fewer than `semaphoreWidth` tasks currently hold a slot, and a
running task may finish at any time, releasing its slot. -/
inductive SemStep : List TaskPhase → List TaskPhase → Prop where
  | acquire (ts : List TaskPhase) (i : Nat) (hp : ts.get? i = some TaskPhase.pending)
      (hw : runningCount ts < IometeClient.semaphoreWidth) :
      SemStep ts (ts.set i TaskPhase.running)
  | release (ts : List TaskPhase) (i : Nat) (hr : ts.get? i = some TaskPhase.running) :
      SemStep ts (ts.set i TaskPhase.done)

/-- `FailedJob` from `src/src/domain/models.py` / `schemas.models`. -/
structure FailedJob where
  job_id : String
  job_name : String
deriving DecidableEq

/-- `FailedRun` from `schemas.models` (the run descriptor paired with each
job by batch discovery). -/
structure FailedRun where
  run_id : String
deriving DecidableEq

/-- One element of the `RCA_Solution` list built for a processed job in
`Main.run` (`src/src/main.py` lines 192-202). -/
structure RCASolution where
  error_type : String
  error_message : String
  root_cause : String
  severity : String
  resolution : List String
  source : String
  rca_category : String
deriving DecidableEq

/-- One per-job entry of the batch report's `results` list
(`src/src/main.py` lines 186-220). -/
structure ResultEntry where
  job_id : String
  run_id : String
  job_name : String
  status : String
  rcaSolution : List RCASolution
deriving DecidableEq

/-- The aggregate output object of the hourly mode (`src/src/main.py`
lines 223-231). -/
structure BatchReport where
  totalFailedJobs : Nat
  jobsProcessed : Nat
  logsFetchedFromIomete : Nat
  logsFetchedFromSplunk : Nat
  jobsFailedDueToDriverIssues : Nat
  jobsWithoutLogsInSources : Nat
  results : List ResultEntry
deriving DecidableEq

/-- The result entry appended for a job whose pipeline succeeded
(`src/src/main.py` lines 186-204). -/
def Main.processedEntry (job : FailedJob) (run : FailedRun) (state : RCAState) : ResultEntry :=
  { job_id := job.job_id
    run_id := run.run_id
    job_name := job.job_name
    status := "processed"
    rcaSolution := [{ error_type := state.error_type
                      error_message := state.error_message
                      root_cause := state.root_cause
                      severity := state.severity
                      resolution := state.resolution
                      source := if state.solution_source ≠ "" then state.solution_source
                                else "knowledge_base"
                      rca_category := state.category }] }

/-- The result entry appended inside the per-job `except` handler
(`src/src/main.py` lines 205-220). -/
def Main.failedEntry (job : FailedJob) (run : FailedRun) : ResultEntry :=
  { job_id := job.job_id
    run_id := run.run_id
    job_name := job.job_name
    status := "failed"
    rcaSolution := [] }

/-- The mutable loop accumulator of the hourly mode: the four counters and
the growing `results` list (`src/src/main.py` lines 150-154). -/
structure BatchAcc where
  iomete : Nat
  splunk : Nat
  driver : Nat
  noLogs : Nat
  results : List ResultEntry
deriving DecidableEq

/-- One iteration of the hourly per-job loop (`src/src/main.py`
lines 156-220).  The fallible prefix of the `try` block — the awaited
`engine.run` plus the raw-log file write — is injected as the job's
`outcome`; everything after it (counter increments and the entry append) is
pure dict reading.  A failure anywhere in the `try` block lands in the
`except` handler, which appends a `failed` entry for this job only. -/
def Main.processJob (acc : BatchAcc) (item : FailedJob × FailedRun × Except String RCAState) :
    BatchAcc :=
  match item with
  | (job, run, outcome) =>
    match outcome with
    | .ok state =>
      let acc1 :=
        if state.log_source = "iomete" then { acc with iomete := acc.iomete + 1 }
        else if state.log_source = "splunk" then { acc with splunk := acc.splunk + 1 }
        else { acc with noLogs := acc.noLogs + 1 }
      let acc2 := if state.driver_failure then { acc1 with driver := acc1.driver + 1 } else acc1
      { acc2 with results := acc2.results ++ [Main.processedEntry job run state] }
    | .error _ => { acc with results := acc.results ++ [Main.failedEntry job run] }

/-- The hourly mode of `Main.run` (`src/src/main.py` lines 138-231) after
batch discovery: iterate the per-job loop over the discovered (job, run)
pairs, then assemble the aggregate report.  `pipeline` is the fallible
per-job work (engine execution plus log-file write). -/
def Main.runHourly (pipeline : FailedJob → FailedRun → Except String RCAState)
    (jobs : List (FailedJob × FailedRun)) : BatchReport :=
  let items := jobs.map (fun jr => (jr.1, jr.2, pipeline jr.1 jr.2))
  let f := items.foldl Main.processJob { iomete := 0, splunk := 0, driver := 0, noLogs := 0, results := [] }
  { totalFailedJobs := jobs.length
    jobsProcessed := f.results.length
    logsFetchedFromIomete := f.iomete
    logsFetchedFromSplunk := f.splunk
    jobsFailedDueToDriverIssues := f.driver
    jobsWithoutLogsInSources := f.noLogs
    results := f.results }

/-- The entry `Main.run` appends for one (job, run, outcome) triple: the
success branch's `processed` entry or the `except` handler's `failed`
entry (`src/src/main.py` lines 163-220). -/
def Main.perJobEntry (item : FailedJob × FailedRun × Except String RCAState) : ResultEntry :=
  match item with
  | (job, run, Except.ok state) => Main.processedEntry job run state
  | (job, run, Except.error _) => Main.failedEntry job run

/-- The sum of the three log-source counters of the hourly loop. -/
def BatchAcc.csum (acc : BatchAcc) : Nat :=
  acc.iomete + acc.splunk + acc.noLogs

/-- A concrete termination-timestamp parse used for evaluating the batch
run selection: three parseable timestamps, everything else unparseable. -/
def exampleParse : String → Option Int := fun s =>
  if s = "T09" then some 9 else if s = "T10" then some 10
  else if s = "T11" then some 11 else none

/-- The run list of the spec's run-selection example: `ABORTED@10:00`,
`FAILED@09:00`, `RUNNING@11:00`. -/
def exampleRuns : List RunInfo :=
  [{ runID := "r1", driverStatus := "ABORTED", terminationTime := "T10" },
   { runID := "r2", driverStatus := "FAILED", terminationTime := "T09" },
   { runID := "r3", driverStatus := "RUNNING", terminationTime := "T11" }]

/-- The spec's run-selection example without the `RUNNING` run, so the
latest parseable run is terminal. -/
def exampleTerminalRuns : List RunInfo :=
  [{ runID := "r1", driverStatus := "ABORTED", terminationTime := "T10" },
   { runID := "r2", driverStatus := "FAILED", terminationTime := "T09" }]

/-- Claim C1 counterexample: `clone_with_updates` does not concatenate the
accumulator sequences — a partial update carrying `decision_path`
`["lineage"]` merged onto a state whose `decision_path` is
`["log_fetcher", "driver_failure"]` yields `["lineage"]` (not the
concatenation), so `decision_path` shrinks across this merge. -/
theorem cloneWithUpdates_shrinks_decision_path :
    (RCAStateFactory.cloneWithUpdates
        { RCAStateFactory.createInitial "j" "n" "e" "t" with
          decision_path := ["log_fetcher", "driver_failure"] }
        { decision_path := some ["lineage"] }).decision_path = ["lineage"] ∧
    (RCAStateFactory.cloneWithUpdates
        { RCAStateFactory.createInitial "j" "n" "e" "t" with
          decision_path := ["log_fetcher", "driver_failure"] }
        { decision_path := some ["lineage"] }).decision_path.length <
      (["log_fetcher", "driver_failure"] : List String).length :=
  ⟨rfl, by decide⟩

/-- Claim C1 (amended): for every state and every partial update,
`clone_with_updates` *overwrites* each of `errors`, `decision_path` and
`agent_history` with the partial's sequence when the partial carries that
key, and leaves it unchanged otherwise; the partial's sequence replaces the
existing one rather than being concatenated onto it, so these fields can
shrink when the partial's sequence is shorter. -/
theorem cloneWithUpdates_overwrites_accumulators :
    ∀ (st : RCAState) (u : StateUpdate),
      (RCAStateFactory.cloneWithUpdates st u).errors = u.errors.getD st.errors ∧
      (RCAStateFactory.cloneWithUpdates st u).decision_path
          = u.decision_path.getD st.decision_path ∧
      (RCAStateFactory.cloneWithUpdates st u).agent_history
          = u.agent_history.getD st.agent_history :=
  fun _ _ => ⟨rfl, rfl, rfl⟩

/-- Claim C2 (code evaluated at the failing input): for every injected graph
walk and all identifiers, `RCAEngine.run` raises
`ValueError("State missing required keys: ['execution_id']")` from the
pre-walk `RCAStateValidator.validate(state)` call — the initial-state dict
supplies `run_id` while the validator requires `execution_id` — so no
single-job execution ever finishes the graph walk or returns a terminal
state whose status could be compared against its errors. -/
theorem engineRun_raises_validation_before_walk :
    ∀ (graph : RCAState → Except String RCAState) (jobId jobName runId t0 t1 : String),
      RCAEngine.run graph jobId jobName runId t0 t1
        = Except.error (EngineFailure.validationError ["execution_id"]) :=
  fun _ _ _ _ _ _ => rfl

/-- Claim C4 (code evaluated at the failing input): on a graph walk that
throws, `RCAEngine.run` still raises the pre-walk `ValueError` (first
conjunct), so the fatal handler is unreachable; the handler itself
(second conjunct) re-validates the failed dict — which also lacks
`execution_id` — and therefore raises `ValueError` instead of the wrapped
`GraphError`; and in every case an exception is raised, so the fully-formed
terminal state is never returned to the caller.  The third conjunct shows
the `failed` dict the handler builds and discards does carry the claimed
single `GraphError`/`engine` entry, stamped `end_time` and `failed`
status. -/
theorem engineFatal_never_returns_state :
    (∀ (jobId jobName runId t0 t1 msg : String),
        RCAEngine.run (fun _ => Except.error msg) jobId jobName runId t0 t1
          = Except.error (EngineFailure.validationError ["execution_id"])) ∧
    (∀ msg : String,
        RCAEngine.exceptBlock RCAEngine.initialStateKeys msg
          = Except.error (EngineFailure.validationError ["execution_id"])) ∧
    (∀ (st : RCAState) (msg t1 : String),
        (RCAEngine.failedState st msg t1).errors
            = st.errors ++ [{ code := "GraphError", message := msg, source := "engine",
                              details := [] }] ∧
        (RCAEngine.failedState st msg t1).status = "failed" ∧
        (RCAEngine.failedState st msg t1).end_time = t1) :=
  ⟨fun _ _ _ _ _ _ => rfl, fun _ => rfl, fun _ _ _ => ⟨rfl, rfl, rfl⟩⟩

/-- Claim C5 (code evaluated at the failing input of the repository's own
unit test `test_driver_failure`): on a successful detection the
driver-failure agent's returned partial update carries the one-element
`agent_history`, `decision_path` and `confidence_scores` additions but *no*
`driver_failure` key — the clone holding the flag is only read for its
confidence scores — and likewise the summarizer's update drops `summary`,
`error_type`, `error_message` and `retrieval_context`. -/
theorem driverFailure_success_update_drops_flag :
    (DriverFailureAgent.run (Except.ok true)
        (RCAStateFactory.createInitial "j" "n" "e" "t")).driver_failure = none ∧
    (DriverFailureAgent.run (Except.ok true)
        (RCAStateFactory.createInitial "j" "n" "e" "t")).decision_path
        = some ["driver_failure"] ∧
    (DriverFailureAgent.run (Except.ok true)
        (RCAStateFactory.createInitial "j" "n" "e" "t")).agent_history
        = some [{ agent := "driver_failure"
                  result := { status := "success"
                              data := [("driver_failure", PyVal.bool true)]
                              confidence := 1, meta := [] } }] ∧
    (DriverFailureAgent.run (Except.ok true)
        (RCAStateFactory.createInitial "j" "n" "e" "t")).confidence_scores
        = some [("driver_failure", 1)] ∧
    (SummarizerAgent.run (Except.ok []) (Except.ok [("matches", PyVal.str "ctx")])
        (Except.ok { status := "success", data := [("summary", PyVal.str "s1")],
                     confidence := 9/10, meta := [] })
        (RCAStateFactory.createInitial "j" "n" "e" "t")).summary = none ∧
    (SummarizerAgent.run (Except.ok []) (Except.ok [("matches", PyVal.str "ctx")])
        (Except.ok { status := "success", data := [("summary", PyVal.str "s1")],
                     confidence := 9/10, meta := [] })
        (RCAStateFactory.createInitial "j" "n" "e" "t")).retrieval_context = none ∧
    (SummarizerAgent.run (Except.ok []) (Except.ok [("matches", PyVal.str "ctx")])
        (Except.ok { status := "success", data := [("summary", PyVal.str "s1")],
                     confidence := 9/10, meta := [] })
        (RCAStateFactory.createInitial "j" "n" "e" "t")).decision_path
        = some ["summarizer"] :=
  ⟨rfl, rfl, rfl, rfl, rfl, rfl, rfl⟩

/-- Claim C6: a node whose internal work raises returns a partial update
carrying exactly a one-element `errors` sequence — whose single entry's
`source` is that node's name — and `status = "failed"`, with every other
key absent (in particular `decision_path`, `agent_history`,
`confidence_scores` and `end_time`); and each of the seven agents routes its
collaborator failures through exactly this `_attach_error` update after
wrapping them in an `AgentError` tagged with its own name. -/
theorem nodeFailure_update_contains_only_error :
    (∀ (name : String) (e : PyError),
      (BaseAgent.attachError name e).errors
          = some [{ code := e.className, message := e.message, source := name,
                    details := [] }] ∧
      (BaseAgent.attachError name e).status = some "failed" ∧
      (BaseAgent.attachError name e).decision_path = none ∧
      (BaseAgent.attachError name e).agent_history = none ∧
      (BaseAgent.attachError name e).confidence_scores = none ∧
      (BaseAgent.attachError name e).end_time = none ∧
      (BaseAgent.attachError name e).logs = none ∧
      (BaseAgent.attachError name e).summary = none ∧
      (BaseAgent.attachError name e).root_cause = none ∧
      (BaseAgent.attachError name e).solution = none ∧
      (BaseAgent.attachError name e).category = none ∧
      (BaseAgent.attachError name e).lineage = none ∧
      (BaseAgent.attachError name e).driver_failure = none ∧
      (BaseAgent.attachError name e).retrieval_context = none ∧
      (BaseAgent.attachError name e).log_source = none ∧
      (BaseAgent.attachError name e).error_type = none ∧
      (BaseAgent.attachError name e).error_message = none ∧
      (BaseAgent.attachError name e).severity = none ∧
      (BaseAgent.attachError name e).resolution = none ∧
      (BaseAgent.attachError name e).solution_source = none) ∧
    (∀ (e : PyError) (sp : Except PyError (Option String)) (st : RCAState),
      LogFetcherAgent.run (Except.error e) sp st
        = BaseAgent.attachError "log_fetcher"
            (BaseAgent.wrapException "log_fetcher" "failed to fetch logs" e)) ∧
    (∀ (e : PyError) (st : RCAState),
      LogFetcherAgent.run (Except.ok none) (Except.error e) st
        = BaseAgent.attachError "log_fetcher"
            (BaseAgent.wrapException "log_fetcher" "failed to fetch logs" e)) ∧
    (∀ (e : PyError) (st : RCAState),
      DriverFailureAgent.run (Except.error e) st
        = BaseAgent.attachError "driver_failure"
            (BaseAgent.wrapException "driver_failure" "failed to detect driver failure" e)) ∧
    (∀ (e : PyError) (bc : Except PyError (List (String × PyVal)))
        (inv : Except PyError AgentResult) (st : RCAState),
      SummarizerAgent.run (Except.error e) bc inv st
        = BaseAgent.attachError "summarizer"
            (BaseAgent.wrapException "summarizer" "failed to summarize logs" e)) ∧
    (∀ (e : PyError) (st : RCAState),
      LineageAgent.run (Except.error e) st
        = BaseAgent.attachError "lineage"
            (BaseAgent.wrapException "lineage" "failed to fetch lineage" e)) ∧
    (∀ (e : PyError) (st : RCAState),
      CategoryAgent.run (Except.error e) st
        = BaseAgent.attachError "category"
            (BaseAgent.wrapException "category" "failed to classify category" e)) ∧
    (∀ (e : PyError) (bc : Except PyError (List (String × PyVal))) (st : RCAState),
      RCAAgent.run (Except.error e) bc (Except.error e) st
        = BaseAgent.attachError "rca"
            (BaseAgent.wrapException "rca" "failed to infer root cause" e)) ∧
    (∀ (e : PyError) (inv : Except PyError AgentResult)
        (sev : Except PyError (String × Int)) (st : RCAState),
      SolutionAgent.run (Except.error e) inv sev st
        = BaseAgent.attachError "solution"
            (BaseAgent.wrapException "solution" "failed to generate solution" e)) := by
  refine ⟨fun name e => ?_, fun _ _ _ => rfl, fun _ _ => rfl, fun _ _ => rfl,
    fun _ _ _ _ => rfl, fun _ _ => rfl, fun _ _ => rfl, fun e bc st => ?_,
    fun _ _ _ _ => rfl⟩
  · exact ⟨rfl, rfl, rfl, rfl, rfl, rfl, rfl, rfl, rfl, rfl, rfl, rfl, rfl, rfl,
      rfl, rfl, rfl, rfl, rfl, rfl⟩
  · unfold RCAAgent.run
    by_cases h : (st.retrieval_context = [] ∧ st.logs ≠ "")
    · rw [if_pos h]; rfl
    · rw [if_neg h]; rfl

/-- Claim C7: routing Rule B selects the root-cause node exactly for states
with empty `logs` and `driver_failure` set, and the lineage node for every
other state. -/
theorem routeAfterDriverFailure_rule_b :
    ∀ st : RCAState,
      (st.logs = "" → st.driver_failure = true →
        RCAGraphBuilder.routeAfterDriverFailure st = "rca") ∧
      (¬ (st.logs = "" ∧ st.driver_failure = true) →
        RCAGraphBuilder.routeAfterDriverFailure st = "lineage") := by
  intro st
  constructor
  · intro h1 h2
    unfold RCAGraphBuilder.routeAfterDriverFailure
    rw [if_pos ⟨h1, h2⟩]
  · intro h
    unfold RCAGraphBuilder.routeAfterDriverFailure
    rw [if_neg h]

/-- Witness for Claim C7: Rule B evaluated on a concrete empty-logs
driver-failure state and on a concrete state with logs. -/
theorem routeAfterDriverFailure_rule_b_witness :
    RCAGraphBuilder.routeAfterDriverFailure
        { RCAStateFactory.createInitial "j" "n" "e" "t" with driver_failure := true }
        = "rca" ∧
    RCAGraphBuilder.routeAfterDriverFailure
        { RCAStateFactory.createInitial "j" "n" "e" "t" with
          logs := "some logs", driver_failure := true } = "lineage" :=
  ⟨(routeAfterDriverFailure_rule_b _).1 rfl rfl,
   (routeAfterDriverFailure_rule_b _).2 (fun h => absurd h.1 (by decide))⟩

/-- The base element's timestamp never exceeds the fold result's. -/
theorem laterRun_foldl_base_le (xs : List (RunInfo × Int)) (x : RunInfo × Int) :
    x.2 ≤ (xs.foldl IometeClient.laterRun x).2 := by
  induction xs generalizing x with
  | nil => exact le_refl _
  | cons y ys ih =>
    refine le_trans ?_ (ih (IometeClient.laterRun x y))
    unfold IometeClient.laterRun
    split
    · omega
    · exact le_refl _

/-- Every listed timestamp is bounded by the fold result's timestamp. -/
theorem laterRun_foldl_mem_le (xs : List (RunInfo × Int)) (x q : RunInfo × Int)
    (hq : q ∈ xs) : q.2 ≤ (xs.foldl IometeClient.laterRun x).2 := by
  induction xs generalizing x with
  | nil => cases hq
  | cons y ys ih =>
    rcases List.mem_cons.mp hq with h | h
    · subst h
      refine le_trans ?_ (laterRun_foldl_base_le ys (IometeClient.laterRun x q))
      unfold IometeClient.laterRun
      split
      · exact le_refl _
      · omega
    · exact ih (IometeClient.laterRun x y) h

/-- The fold result is one of the candidates. -/
theorem laterRun_foldl_mem (xs : List (RunInfo × Int)) (x : RunInfo × Int) :
    xs.foldl IometeClient.laterRun x ∈ x :: xs := by
  induction xs generalizing x with
  | nil => exact List.mem_singleton.mpr rfl
  | cons y ys ih =>
    have h := ih (IometeClient.laterRun x y)
    rcases List.mem_cons.mp h with h' | h'
    · rw [List.foldl_cons, h']
      unfold IometeClient.laterRun
      split
      · exact List.mem_cons_of_mem _ (List.mem_cons_self _ _)
      · exact List.mem_cons_self _ _
    · exact List.mem_cons_of_mem _ (List.mem_cons_of_mem _ h')

/-- `latestByTime` returns a listed run of maximal timestamp (the first such
run, matching Python's stable descending sort followed by `[0]`). -/
theorem latestByTime_spec (l : List (RunInfo × Int)) (z : RunInfo × Int)
    (h : IometeClient.latestByTime l = some z) :
    z ∈ l ∧ ∀ q ∈ l, q.2 ≤ z.2 := by
  cases l with
  | nil => cases h
  | cons x xs =>
    unfold IometeClient.latestByTime at h
    injection h with h
    subst h
    constructor
    · exact laterRun_foldl_mem xs x
    · intro q hq
      rcases List.mem_cons.mp hq with h' | h'
      · subst h'
        exact laterRun_foldl_base_le xs q
      · exact laterRun_foldl_mem_le xs x q h'

/-- Claim C3 counterexample: on the spec's own example —
`ABORTED@10:00, FAILED@09:00, RUNNING@11:00`, all three timestamps
parseable — the code selects nothing at all (the job is dropped), because
the status filter is applied only *after* picking the single latest run by
timestamp, and that latest run is the non-terminal `RUNNING@11:00`; the
claim instead requires the `ABORTED@10:00` run to be selected. -/
theorem selectFailedRun_example_counterexample :
    IometeClient.selectFailedRun exampleParse exampleRuns = none ∧
    IometeClient.selectFailedRun exampleParse exampleRuns
      ≠ some { runID := "r1", driverStatus := "ABORTED", terminationTime := "T10" } := by
  constructor
  · decide
  · decide

/-- Claim C3 (amended): batch discovery first restricts to runs with truthy,
parseable termination timestamps, then picks the single run with the
greatest timestamp *regardless of status*, and keeps the job only if that
latest run carries a driver status in `FAILED`/`ABORTED` and a truthy run
id; in every other case — including when the latest-terminated run is not
terminal — the job is dropped silently. -/
theorem selectFailedRun_latest_first_then_status :
    ∀ (parseTime : String → Option Int) (runs : List RunInfo) (r : RunInfo),
      (IometeClient.selectFailedRun parseTime runs = some r →
        (r.driverStatus = "FAILED" ∨ r.driverStatus = "ABORTED") ∧ r.runID ≠ "" ∧
        ∃ t : Int, (r, t) ∈ IometeClient.runsWithTime parseTime runs ∧
          ∀ q ∈ IometeClient.runsWithTime parseTime runs, q.2 ≤ t) ∧
      (∀ z : RunInfo × Int,
        IometeClient.latestByTime (IometeClient.runsWithTime parseTime runs) = some z →
        ¬ ((z.1.driverStatus = "FAILED" ∨ z.1.driverStatus = "ABORTED") ∧ z.1.runID ≠ "") →
        IometeClient.selectFailedRun parseTime runs = none) := by
  intro parse runs r
  constructor
  · intro h
    unfold IometeClient.selectFailedRun at h
    cases hl : IometeClient.latestByTime (IometeClient.runsWithTime parse runs) with
    | none => rw [hl] at h; cases h
    | some z =>
      rw [hl] at h
      rcases z with ⟨latest, t⟩
      by_cases hc : (latest.driverStatus = "FAILED" ∨ latest.driverStatus = "ABORTED")
          ∧ latest.runID ≠ ""
      · have h' : some latest = some r := by
          have h2 : (if (latest.driverStatus = "FAILED" ∨ latest.driverStatus = "ABORTED")
              ∧ latest.runID ≠ "" then some latest else none) = some r := h
          rwa [if_pos hc] at h2
        injection h' with h'
        subst h'
        obtain ⟨hmem, hmax⟩ := latestByTime_spec _ _ hl
        exact ⟨hc.1, hc.2, t, hmem, hmax⟩
      · have h2 : (if (latest.driverStatus = "FAILED" ∨ latest.driverStatus = "ABORTED")
            ∧ latest.runID ≠ "" then some latest else none) = some r := h
        rw [if_neg hc] at h2
        cases h2
  · intro z hl hc
    unfold IometeClient.selectFailedRun
    rw [hl]
    rcases z with ⟨latest, t⟩
    exact if_neg hc

/-- Witness for Claim C3 (amended): with the `RUNNING` run removed, the
latest parseable run `ABORTED@10:00` is terminal and is selected, and its
timestamp dominates the candidate list. -/
theorem selectFailedRun_latest_first_then_status_witness :
    (({ runID := "r1", driverStatus := "ABORTED", terminationTime := "T10" } : RunInfo).driverStatus
        = "FAILED" ∨
     ({ runID := "r1", driverStatus := "ABORTED", terminationTime := "T10" } : RunInfo).driverStatus
        = "ABORTED") ∧
    ({ runID := "r1", driverStatus := "ABORTED", terminationTime := "T10" } : RunInfo).runID ≠ "" ∧
    ∃ t : Int,
      (({ runID := "r1", driverStatus := "ABORTED", terminationTime := "T10" } : RunInfo), t)
          ∈ IometeClient.runsWithTime exampleParse exampleTerminalRuns ∧
      ∀ q ∈ IometeClient.runsWithTime exampleParse exampleTerminalRuns, q.2 ≤ t :=
  (selectFailedRun_latest_first_then_status exampleParse exampleTerminalRuns
    { runID := "r1", driverStatus := "ABORTED", terminationTime := "T10" }).1 (by decide)

/-- Each loop iteration appends exactly one result entry, determined by that
job's own (job, run, outcome) triple alone. -/
theorem processJob_results (acc : BatchAcc)
    (item : FailedJob × FailedRun × Except String RCAState) :
    (Main.processJob acc item).results = acc.results ++ [Main.perJobEntry item] := by
  rcases item with ⟨job, run, outcome⟩
  cases outcome with
  | ok st =>
    simp only [Main.processJob, Main.perJobEntry]
    by_cases h1 : st.log_source = "iomete" <;> by_cases h2 : st.log_source = "splunk" <;>
      by_cases h3 : st.driver_failure = true <;> simp [h1, h2, h3]
  | error msg => rfl

/-- The whole loop produces one entry per discovered job, in order. -/
theorem foldl_processJob_results
    (items : List (FailedJob × FailedRun × Except String RCAState)) (acc : BatchAcc) :
    (items.foldl Main.processJob acc).results = acc.results ++ items.map Main.perJobEntry := by
  induction items generalizing acc with
  | nil => simp
  | cons x xs ih =>
    rw [List.foldl_cons, ih, List.map_cons, processJob_results]
    simp [List.append_assoc]

/-- A successfully processed job advances the three log-source counters by
exactly one in total, whichever branch its `log_source` selects. -/
theorem processJob_csum_ok (acc : BatchAcc) (job : FailedJob) (run : FailedRun)
    (st : RCAState) :
    (Main.processJob acc (job, run, Except.ok st)).csum = acc.csum + 1 := by
  simp only [Main.processJob, BatchAcc.csum]
  by_cases h1 : st.log_source = "iomete" <;> by_cases h2 : st.log_source = "splunk" <;>
    by_cases h3 : st.driver_failure = true <;> simp [h1, h2, h3] <;> omega

/-- A job that failed fatally leaves all three log-source counters
untouched. -/
theorem processJob_csum_error (acc : BatchAcc) (job : FailedJob) (run : FailedRun)
    (msg : String) :
    (Main.processJob acc (job, run, Except.error msg)).csum = acc.csum := rfl

/-- Invariant of the hourly loop: the three log-source counters sum to the
number of `processed` entries accumulated so far. -/
theorem foldl_processJob_csum (items : List (FailedJob × FailedRun × Except String RCAState))
    (acc : BatchAcc)
    (hinv : acc.csum = (acc.results.filter (fun r => r.status = "processed")).length) :
    (items.foldl Main.processJob acc).csum
      = (((items.foldl Main.processJob acc).results).filter
          (fun r => r.status = "processed")).length := by
  induction items generalizing acc with
  | nil => exact hinv
  | cons x xs ih =>
    rw [List.foldl_cons]
    apply ih
    rcases x with ⟨job, run, outcome⟩
    cases outcome with
    | ok st =>
      rw [processJob_csum_ok, processJob_results, List.filter_append, List.length_append]
      simp [Main.perJobEntry, Main.processedEntry, hinv]
    | error msg =>
      rw [processJob_csum_error, processJob_results, List.filter_append, List.length_append]
      simp [Main.perJobEntry, Main.failedEntry, hinv]

/-- Claim C8: the hourly batch always yields an aggregate report whose
`results` list has exactly one entry per discovered job, each entry a
function of that job's own (job, run, outcome) triple alone — so one job's
fatal pipeline failure is recorded as a `failed` entry for that job only
and cannot affect any sibling's entry — with successful jobs recorded as
`processed` and fatally failed jobs as `failed` with an empty solution
list. -/
theorem batch_isolates_per_job_failures :
    ∀ (pipeline : FailedJob → FailedRun → Except String RCAState)
      (jobs : List (FailedJob × FailedRun)),
      (Main.runHourly pipeline jobs).results
          = jobs.map (fun jr => Main.perJobEntry (jr.1, jr.2, pipeline jr.1 jr.2)) ∧
      (∀ (job : FailedJob) (run : FailedRun) (st : RCAState),
          (Main.perJobEntry (job, run, Except.ok st)).status = "processed") ∧
      (∀ (job : FailedJob) (run : FailedRun) (msg : String),
          Main.perJobEntry (job, run, Except.error msg) = Main.failedEntry job run) ∧
      (∀ (job : FailedJob) (run : FailedRun), (Main.failedEntry job run).status = "failed") := by
  intro pipeline jobs
  refine ⟨?_, fun _ _ _ => rfl, fun _ _ _ => rfl, fun _ _ => rfl⟩
  simp only [Main.runHourly]
  rw [foldl_processJob_results]
  simp [List.map_map, Function.comp]

/-- Claim C10: in the aggregate report the counters for IOMETE-sourced logs,
Splunk-sourced logs and no-logs jobs always sum to the number of result
entries with status `processed`; a successful job increments exactly one of
the three (second conjunct) and a fatally failed job increments none
(third conjunct). -/
theorem batch_log_source_counters_sum :
    ∀ (pipeline : FailedJob → FailedRun → Except String RCAState)
      (jobs : List (FailedJob × FailedRun)),
      (Main.runHourly pipeline jobs).logsFetchedFromIomete
          + (Main.runHourly pipeline jobs).logsFetchedFromSplunk
          + (Main.runHourly pipeline jobs).jobsWithoutLogsInSources
        = (((Main.runHourly pipeline jobs).results).filter
            (fun r => r.status = "processed")).length ∧
      (∀ (acc : BatchAcc) (job : FailedJob) (run : FailedRun) (st : RCAState),
          (Main.processJob acc (job, run, Except.ok st)).csum = acc.csum + 1) ∧
      (∀ (acc : BatchAcc) (job : FailedJob) (run : FailedRun) (msg : String),
          (Main.processJob acc (job, run, Except.error msg)).csum = acc.csum) := by
  intro pipeline jobs
  refine ⟨?_, processJob_csum_ok, processJob_csum_error⟩
  simp only [Main.runHourly]
  have h := foldl_processJob_csum (jobs.map fun jr => (jr.1, jr.2, pipeline jr.1 jr.2))
    { iomete := 0, splunk := 0, driver := 0, noLogs := 0, results := [] } rfl
  simpa [BatchAcc.csum] using h

/-- Replacing one known element of a list shifts the predicate count by the
difference between the old and new element's predicate values. -/
theorem countP_set_add (ts : List TaskPhase) (i : Nat) (a b : TaskPhase)
    (p : TaskPhase → Bool) (h : ts.get? i = some a) :
    (ts.set i b).countP p + (if p a then 1 else 0)
      = ts.countP p + (if p b then 1 else 0) := by
  induction ts generalizing i with
  | nil => cases h
  | cons x xs ih =>
    cases i with
    | zero =>
      injection h with h
      subst h
      simp [List.countP_cons]
      omega
    | succ n =>
      rw [List.get?_cons_succ] at h
      have hrec := ih n h
      simp [List.countP_cons]
      omega

/-- Before any task starts, no semaphore slot is held. -/
theorem runningCount_replicate_pending (n : Nat) :
    runningCount (List.replicate n TaskPhase.pending) = 0 := by
  induction n with
  | zero => rfl
  | succ k ih =>
    unfold runningCount at ih ⊢
    rw [List.replicate_succ, List.countP_cons]
    simp [TaskPhase.isRunning, ih]

/-- One scheduler step preserves the semaphore bound: an acquire is only
enabled below the width, and a release can only decrease the count. -/
theorem semStep_preserves_bound (ts ts' : List TaskPhase) (h : SemStep ts ts')
    (hle : runningCount ts ≤ IometeClient.semaphoreWidth) :
    runningCount ts' ≤ IometeClient.semaphoreWidth := by
  cases h with
  | acquire i hp hw =>
    have hc := countP_set_add ts i TaskPhase.pending TaskPhase.running TaskPhase.isRunning hp
    unfold runningCount at hw ⊢
    simp [TaskPhase.isRunning] at hc
    omega
  | release i hr =>
    have hc := countP_set_add ts i TaskPhase.running TaskPhase.done TaskPhase.isRunning hr
    unfold runningCount at hle ⊢
    simp [TaskPhase.isRunning] at hc
    omega

/-- Claim C9: issuing any number of `_process_single_job` tasks against the
shared `asyncio.Semaphore(100)`, every state reachable by interleaved
acquire/release steps from the all-pending start has at most 100 tasks
inside the semaphore-guarded block at any instant. -/
theorem semaphore_bounds_concurrency :
    ∀ (n : Nat) (ts : List TaskPhase),
      Relation.ReflTransGen SemStep (List.replicate n TaskPhase.pending) ts →
      runningCount ts ≤ IometeClient.semaphoreWidth := by
  intro n ts h
  induction h with
  | refl => rw [runningCount_replicate_pending]; exact Nat.zero_le _
  | tail hsteps hstep ih => exact semStep_preserves_bound _ _ hstep ih

/-- Witness for Claim C9: 250 issued tasks with the first one having entered
the guarded block is a reachable state, and its in-flight count respects the
ceiling. -/
theorem semaphore_bounds_concurrency_witness :
    runningCount ((List.replicate 250 TaskPhase.pending).set 0 TaskPhase.running)
      ≤ IometeClient.semaphoreWidth :=
  semaphore_bounds_concurrency 250 _
    (Relation.ReflTransGen.single
      (SemStep.acquire (List.replicate 250 TaskPhase.pending) 0
        (by rw [List.replicate_succ]; rfl)
        (by rw [runningCount_replicate_pending]; decide)))
